import Mathlib

/-
  Verification development for the pyasf telemetry/control library.

  The Python sources (src/pyasf/utils.py and src/pyasf/pyasf.py) are shallowly
  embedded below.  Python values flowing through the library (JSON-compatible
  scalars, lists, dicts, numpy arrays and numpy dtype objects) are modelled by
  the inductive type `PyVal`; Python dicts are modelled as insertion-ordered
  association lists with Python's insert-or-overwrite update semantics
  (`alistUpdate`).  Numpy arrays are modelled as a dtype name together with the
  nested element structure (`NpData`).
-/

namespace Pyasf

/-- A numeric scalar: a Python/numpy integer or a floating value
(floats modelled as rationals; no rounding behaviour is claimed). -/
inductive PyNum where
  | i : Int → PyNum
  | f : Rat → PyNum
deriving DecidableEq, Repr

/-- The element structure of a numpy ndarray: a scalar (0-d leaf) or a
sequence of sub-arrays. -/
inductive NpData where
  | scalar : PyNum → NpData
  | items : List NpData → NpData
deriving Repr

/-- A Python value as handled by the library: JSON scalars, lists, dicts
(insertion-ordered association lists), numpy arrays (dtype name plus nested
data) and numpy dtype objects. -/
inductive PyVal where
  | int : Int → PyVal
  | float : Rat → PyVal
  | str : String → PyVal
  | list : List PyVal → PyVal
  | dict : List (String × PyVal) → PyVal
  | nparray : String → NpData → PyVal
  | npdtype : String → PyVal
deriving Repr

/-- A Python dict of string keys, in iteration (insertion) order. -/
abbrev AList := List (String × PyVal)

/-- `tolist()` conversion of a numpy scalar to the corresponding plain
Python number. -/
def numToVal : PyNum → PyVal
  | .i n => .int n
  | .f q => .float q

/-- Python dict assignment `d[k] = v`: overwrite in place if the key is
present (keeping its position), else append. -/
def alistUpdate (l : AList) (k : String) (v : PyVal) : AList :=
  if l.any (fun p => p.1 == k) then
    l.map (fun p => if p.1 == k then (k, v) else p)
  else l ++ [(k, v)]

/-- Python dict lookup `d.get(k)` / `k in d`. -/
def alistGet? (l : AList) (k : String) : Option PyVal :=
  (l.find? (fun p => p.1 == k)).map (fun p => p.2)

/-- The key synthesis `f"{parent_key}{separator}{k}" if parent_key else k`
(an absent or empty parent key leaves the key unchanged, matching Python
truthiness). -/
def joinKey (parent : Option String) (sep k0 : String) : String :=
  match parent with
  | some p => if p.isEmpty then k0 else p ++ sep ++ k0
  | none => k0

/-- `ndarray.flatten().tolist()`: the elements of the array as a single
flat (1-dimensional) list, in row-major order. -/
def npFlatList : NpData → List PyNum
  | .scalar n => [n]
  | .items [] => []
  | .items (x :: xs) => npFlatList x ++ npFlatList (.items xs)

/-- The element loop of `array_flatten` (utils.py lines 29-35): for each
index, a list element recurses with `f"{dict_key}_{_it}"` and any other
element is stored under that key.  The index separator is the literal
underscore from the f-string. -/
def flatList : List PyVal → AList → String → Nat → AList
  | [], acc, _, _ => acc
  | PyVal.list ys :: rest, acc, key, i =>
      flatList rest (flatList ys acc (key ++ "_" ++ toString i) 0) key (i + 1)
  | v :: rest, acc, key, i =>
      flatList rest (alistUpdate acc (key ++ "_" ++ toString i) v) key (i + 1)

/-- `array_flatten` (utils.py lines 24-37): a numpy array is first converted
with `flatten().tolist()` (yielding a flat list of plain scalars); a list is
then traversed element-wise; anything else is left alone and `0` is
returned. -/
def array_flatten (unflatten : PyVal) (in_dict : AList) (dict_key : String) : AList × Bool :=
  match (match unflatten with
         | PyVal.nparray _ data => PyVal.list ((npFlatList data).map numToVal)
         | w => w) with
  | PyVal.list xs => (flatList xs in_dict dict_key 0, true)
  | _ => (in_dict, false)

/-- The loop of `dict_flatten` (utils.py lines 6-22).  Note that the
recursive call for a nested dict (line 14) does not pass `separator`, so
nested levels always use the default underscore. -/
def dict_flatten_go : List (String × PyVal) → AList → Option String → String → AList
  | [], acc, _, _ => acc
  | (k0, PyVal.dict d) :: rest, acc, parent, sep =>
      dict_flatten_go rest (dict_flatten_go d acc (some (joinKey parent sep k0)) "_") parent sep
  | (k0, v) :: rest, acc, parent, sep =>
      dict_flatten_go rest
        (let k := joinKey parent sep k0
         let pr := array_flatten v acc k
         if pr.2 then pr.1 else alistUpdate acc k v) parent sep

/-- `dict_flatten(in_dict, separator=...)` called at top level
(`dict_out=None`, `parent_key=None`). -/
def dict_flatten (in_dict : AList) (separator : String) : AList :=
  dict_flatten_go in_dict [] none separator

/-- Whether `pat` matches at the head of `l` (character lists). -/
def listStartsWith : List Char → List Char → Bool
  | [], _ => true
  | _ :: _, [] => false
  | a :: as, b :: bs => a == b && listStartsWith as bs

/-- Whether `pat` occurs contiguously anywhere inside `l`. -/
def listContainsSub (pat : List Char) : List Char → Bool
  | [] => listStartsWith pat []
  | l@(_ :: rest) => listStartsWith pat l || listContainsSub pat rest

/-- The Python test `"_dtype" in k`: substring containment anywhere in the
key, as used by `NpTypeDecoder` (utils.py line 80). -/
def hasDtypeTag (k : String) : Bool :=
  listContainsSub "_dtype".data k.data

/-- The Python slice `k[:-6]`: drop the last six characters
(utils.py line 81). -/
def stripDtype (k : String) : String :=
  ⟨k.data.take (k.data.length - 6)⟩

/-- The loop of `NpTypeEncoder` (utils.py lines 55-72): keys are joined with
the separator (default `/`); nested dicts recurse (again with the default
separator); for a numpy array a `<key>_dtype` entry holding the dtype object
is stored immediately before the array entry itself. -/
def np_type_encoder_go : List (String × PyVal) → AList → Option String → String → AList
  | [], acc, _, _ => acc
  | (k0, PyVal.dict d) :: rest, acc, parent, sep =>
      np_type_encoder_go rest
        (np_type_encoder_go d acc (some (joinKey parent sep k0)) "/") parent sep
  | (k0, v) :: rest, acc, parent, sep =>
      np_type_encoder_go rest
        (let k := joinKey parent sep k0
         let acc1 := match v with
           | PyVal.nparray dt _ => alistUpdate acc (k ++ "_dtype") (PyVal.npdtype dt)
           | _ => acc
         alistUpdate acc1 k v) parent sep

/-- `NpTypeEncoder(in_dict)` called at top level (`out_dict=None`,
`parent_key=None`, `separator="/"`). -/
def NpTypeEncoder (in_dict : AList) : AList :=
  np_type_encoder_go in_dict [] none "/"

/-- `np.dtype(...)` casting of one scalar, for the dtype names that can
actually reach `np.array(v, dtype=...)` in this library.  Unrecognized dtype
strings make `np.array` raise, modelled by `none`. -/
def npCast (dt : String) (n : PyNum) : Option PyNum :=
  if dt == "float64" || dt == "float32" then
    some (match n with | .i m => .f (m : Rat) | .f q => .f q)
  else if dt == "int64" || dt == "int32" then
    some (match n with | .i m => .i m | .f q => .i (q.num / (q.den : Int)))
  else none

/-- `np.array(v, dtype=dt)` applied to a JSON value: numbers and (nested)
lists of numbers convert element-wise; anything else raises, modelled by
`none`. -/
def jsonToNp (dt : String) : PyVal → Option NpData
  | .int n => (npCast dt (.i n)).map NpData.scalar
  | .float q => (npCast dt (.f q)).map NpData.scalar
  | .list [] => some (.items [])
  | .list (x :: xs) =>
      match jsonToNp dt x, jsonToNp dt (.list xs) with
      | some d, some (.items ds) => some (.items (d :: ds))
      | _, _ => none
  | _ => none

/-- `np.array(v, dtype=tag)` where `tag` is the value previously stored in
the output dict: a dtype name string (or dtype object) converts the value;
any other tag value makes `np.array` raise. -/
def npArrayOf (tag v : PyVal) : Except String PyVal :=
  match tag with
  | .str dt =>
      match jsonToNp dt v with
      | some d => .ok (.nparray dt d)
      | none => .error "np.array raised"
  | .npdtype dt =>
      match jsonToNp dt v with
      | some d => .ok (.nparray dt d)
      | none => .error "np.array raised"
  | _ => .error "np.array raised"

/-- The loop of `NpTypeDecoder` (utils.py lines 75-87): a key containing
`_dtype` stores its value under the key minus its last six characters; an
already-present key is replaced by `np.array(v, dtype=out_dict[k])`; any
other entry is copied through. -/
def NpTypeDecoder_go : List (String × PyVal) → AList → Except String AList
  | [], out => .ok out
  | (k, v) :: rest, out =>
      if hasDtypeTag k then
        NpTypeDecoder_go rest (alistUpdate out (stripDtype k) v)
      else
        match alistGet? out k with
        | some tag =>
            match npArrayOf tag v with
            | .ok arr => NpTypeDecoder_go rest (alistUpdate out k arr)
            | .error e => .error e
        | none => NpTypeDecoder_go rest (alistUpdate out k v)

/-- `NpTypeDecoder(json_loads)`: decode a received flat mapping in its
iteration order. -/
def NpTypeDecoder (json_loads : AList) : Except String AList :=
  NpTypeDecoder_go json_loads []

/-- `ndarray.tolist()` as performed by `NpEncoder` (utils.py line 50):
nesting preserved, numpy scalars become plain Python numbers. -/
def npToNested : NpData → PyVal
  | .scalar n => numToVal n
  | .items [] => .list []
  | .items (x :: xs) =>
      match npToNested (.items xs) with
      | .list ys => .list (npToNested x :: ys)
      | _ => .list []

/-- `json.dumps(..., cls=NpEncoder)` followed by `json.loads` on the other
side: numpy integers/floats become plain numbers, dtype objects become their
string names, arrays become nested lists; JSON object key order is
preserved. -/
def wire : PyVal → PyVal
  | .int n => .int n
  | .float q => .float q
  | .str s => .str s
  | .list xs => .list (xs.attach.map (fun x => wire x.1))
  | .dict fs => .dict (fs.attach.map (fun p => (p.1.1, wire p.1.2)))
  | .nparray _ data => npToNested data
  | .npdtype s => .str s
decreasing_by
  · simp_wf
    have h1 := List.sizeOf_lt_of_mem x.2
    omega
  · simp_wf
    have h1 := List.sizeOf_lt_of_mem p.2
    cases hp : p.1 with
    | mk a b =>
        simp [hp] at h1 ⊢
        omega

/-- A flat mapping after the JSON round trip: every value passes through
`wire`, keys and their order are unchanged. -/
def wireA (d : AList) : AList :=
  d.map (fun p => (p.1, wire p.2))

/-- Whether a numpy array has exactly the given dimensions (used only to
state claims about the 6 by 5 by 2 command shape; not part of the source,
which performs no shape check). -/
def npShapeIs : NpData → List Nat → Bool
  | .scalar _, dims => dims.isEmpty
  | .items _, [] => false
  | .items xs, n :: dims =>
      xs.length == n && xs.attach.all (fun x => npShapeIs x.1 dims)

set_option linter.unusedVariables false in
/-- `ControllerLink.communicate` (pyasf.py lines 62-92).  Its first
statement evaluates `isinstance(data, np.ndarray)` (line 71), but `np` is
unbound in pyasf.py: the module imports only zmq, json, loguru, pathlib,
pyasf.utils and socket (lines 1-6), and `import numpy as np` inside
pyasf/utils.py binds `np` in that module's namespace, not here.  Every call
therefore raises `NameError` before any branch is taken: nothing is ever
sent on the channel and no status is returned.  The result is the raised
error in place of the status (reply modelled as `Option String`, `none`
being the 50 ms timeout), together with the list of messages sent on the
channel (always empty).  The branch structure of lines 71-92 — wrap and
send an ndarray of any shape, send a dict as is, reject other inputs, then
return 1 exactly for the raw reply `b"ok"` — is unreachable dead code. -/
def communicate (orientation_type : String) (data : PyVal) (reply : Option String) :
    Except String Nat × List PyVal :=
  (.error "NameError: name np is not defined", [])

/-- `Publisher.publish` (pyasf.py lines 238-244).  With `pass_type` set, the
body evaluates `utils.NpTypeEncoder(data)` where `data` is an unbound name
(the parameter is `data_dict` and no enclosing scope defines `data`), so
Python raises `NameError` before anything is encoded or sent; without
`pass_type` it sends the JSON encoding of the flattened record.  The result
is the message sent, or the raised error. -/
def publish (pass_type : Bool) (data_dict : AList) : Except String PyVal :=
  if pass_type then
    .error "NameError: name data is not defined"
  else
    .ok (PyVal.dict (wireA (dict_flatten data_dict "_")))

/-- The mutable state of a `Datalogger` (pyasf.py lines 120-227) that the
claims are about: the `header_written` flag, the `save_to_file` flag, the
lines written to the CSV file object so far, and `self.data` (the retained
numeric payload). -/
structure LoggerState where
  headerWritten : Bool
  saveToFile : Bool
  file : List String
  retained : List PyVal

set_option linter.unusedVariables false in
/-- `Datalogger.__init__` (pyasf.py lines 130-146): line 136 evaluates
`self._flush_time = time.perf_counter()`, but `time` is unbound in pyasf.py
(never imported), so construction raises `NameError` before the file is
opened (with `save_to_file`, line 139's `datetime` is likewise unbound).
No Datalogger instance can ever be constructed. -/
def datalogger_init (filename : String) (save_to_file : Bool) : Except String LoggerState :=
  .error "NameError: name time is not defined"

/-- `Datalogger.get_header` (pyasf.py lines 161-168): the keys of the
flattened record (pure; `dict_flatten` lives in pyasf/utils.py where all
its names are bound). -/
def get_header (json_data : AList) : List String :=
  (dict_flatten json_data "_").map (fun p => p.1)

set_option linter.unusedVariables false in
/-- `Datalogger.get_data` (pyasf.py lines 170-182): the loops build the
stringified values and the value list of the flattened record, but line 180
then executes `self.data = np.array(to_data[1:])` — `np` is unbound in
pyasf.py — so every call raises `NameError` before returning and before
`self.data` is assigned; the local lists are discarded, leaving no
observable result. -/
def get_data (dict_data : AList) : Except String (List String × List PyVal) :=
  .error "NameError: name np is not defined"

/-- `Datalogger._write` (pyasf.py lines 216-223): `self._file.write(data)`
succeeds, appending the line to the file object, but the next statement
`current_time = time.perf_counter()` (line 219) raises `NameError` since
`time` is unbound in pyasf.py; the flush logic is unreachable. -/
def logger_write (st : LoggerState) (data : String) : Except String Unit × LoggerState :=
  (.error "NameError: name time is not defined", { st with file := st.file ++ [data] })

/-- The dict display `{"timestamp": deserialized_dict["timestamp"],
**dict(filter(lambda_gen, deserialized_dict.items()))}` (pyasf.py lines
197-199): raises `KeyError` when the decoded record has no `"timestamp"`
key, else starts from the timestamp entry and merges the filtered items in
order. -/
def applyFilter (d : AList) (p : String × PyVal → Bool) : Except String AList :=
  match alistGet? d "timestamp" with
  | none => .error "KeyError: timestamp"
  | some ts =>
      .ok ((d.filter p).foldl (fun acc kv => alistUpdate acc kv.1 kv.2) [("timestamp", ts)])

/-- `Datalogger.receive` (pyasf.py lines 188-214) applied to one received
raw message (the JSON mapping delivered by the subscription socket) and an
optional filter predicate, with raise propagation made explicit.  In
order: decoding errors propagate; the filter dict display can raise
`KeyError` (line 197) before anything is written; on the first record with
`save_to_file`, `_write_header` reaches `logger_write`, which appends the
header line and then raises `NameError` (line 219), so `header_written`
(line 207) is never set; otherwise `get_data` raises `NameError`
(line 180).  The continuation — retain the payload, append the data row,
`return data_arrays` (the empty dict) — is structurally present but
unreachable. -/
def receive (st : LoggerState) (rawMsg : AList) (pred : Option (String × PyVal → Bool)) :
    Except String AList × LoggerState :=
  match NpTypeDecoder rawMsg with
  | .error e => (.error e, st)
  | .ok deserialized =>
      match (match pred with
             | some p => applyFilter deserialized p
             | none => .ok deserialized) with
      | .error e => (.error e, st)
      | .ok data_dict =>
          match (if !st.headerWritten && st.saveToFile then
                   match logger_write st (String.intercalate "," (get_header data_dict)) with
                   | (.error e, st1) => (.error e, st1)
                   | (.ok _, st1) => (.ok (), { st1 with headerWritten := true })
                 else ((.ok () : Except String Unit), st)) with
          | (.error e, st1) => (.error e, st1)
          | (.ok _, st1) =>
              match get_data data_dict with
              | .error e => (.error e, st1)
              | .ok pr =>
                  match (if st1.saveToFile then
                           logger_write { st1 with retained := pr.2 }
                             (String.intercalate "," pr.1)
                         else ((.ok () : Except String Unit), { st1 with retained := pr.2 })) with
                  | (.error e, st3) => (.error e, st3)
                  | (.ok _, st3) => (.ok [], st3)

/-- The decimal rendering of index `0` in a synthesized key. -/
theorem toString_nat_zero : toString (0 : Nat) = "0" := rfl

/-- The decimal rendering of index `1` in a synthesized key. -/
theorem toString_nat_one : toString (1 : Nat) = "1" := rfl

/-- The decimal rendering of index `2` in a synthesized key. -/
theorem toString_nat_two : toString (2 : Nat) = "2" := rfl

/-- The decimal rendering of index `3` in a synthesized key. -/
theorem toString_nat_three : toString (3 : Nat) = "3" := rfl

/-- A 2 by 2 numpy integer array holding 1, 2, 3, 4 in row-major order. -/
def m22 : PyVal :=
  PyVal.nparray "int64"
    (NpData.items [NpData.items [NpData.scalar (PyNum.i 1), NpData.scalar (PyNum.i 2)],
      NpData.items [NpData.scalar (PyNum.i 3), NpData.scalar (PyNum.i 4)]])

/-- C1 counterexample: flattening a mapping holding a 2 by 2 numpy array at
key `m` yields the keys `m_0`, `m_1`, `m_2`, `m_3` (the array is flattened
to one dimension by `flatten().tolist()` before indexing), so the claimed
key `m_0_0` does not exist. -/
theorem flatten_numpy_2x2_counterexample :
    dict_flatten [("m", m22)] "_" =
      [("m_0", PyVal.int 1), ("m_1", PyVal.int 2), ("m_2", PyVal.int 3), ("m_3", PyVal.int 4)] ∧
    (dict_flatten [("m", m22)] "_").lookup "m_0_0" = none := by
  constructor
  · simp [dict_flatten, dict_flatten_go, array_flatten, npFlatList, numToVal, flatList,
      alistUpdate, joinKey, m22, toString_nat_zero, toString_nat_one, toString_nat_two,
      toString_nat_three]
  · simp [dict_flatten, dict_flatten_go, array_flatten, npFlatList, numToVal, flatList,
      alistUpdate, joinKey, m22, toString_nat_zero, toString_nat_one, toString_nat_two,
      toString_nat_three, List.lookup]

/-- C1 (amended): for every mapping holding a 2 by 2 numpy numeric array at
key `m`, Flatten with separator `_` produces exactly the four keys `m_0`,
`m_1`, `m_2`, `m_3` holding the original four element values in row-major
order (the array is flattened to one dimension first), and no key `m`
itself. -/
theorem flatten_numpy_2x2_amended (dt : String) (a b c d : PyNum) :
    dict_flatten [("m", PyVal.nparray dt
        (NpData.items [NpData.items [NpData.scalar a, NpData.scalar b],
          NpData.items [NpData.scalar c, NpData.scalar d]]))] "_" =
      [("m_0", numToVal a), ("m_1", numToVal b), ("m_2", numToVal c), ("m_3", numToVal d)] := by
  rcases a with n | q <;> rcases b with n2 | q2 <;> rcases c with n3 | q3 <;>
    rcases d with n4 | q4 <;>
    simp [dict_flatten, dict_flatten_go, array_flatten, npFlatList, numToVal, flatList,
      alistUpdate, joinKey, toString_nat_zero, toString_nat_one, toString_nat_two,
      toString_nat_three]

/-- A 1-dimensional two-element numpy array: its shape is (2,), not
6 by 5 by 2. -/
def badShapeArr : NpData :=
  NpData.items [NpData.scalar (PyNum.f 1), NpData.scalar (PyNum.f 2)]

/-- C2 counterexample: at an array input whose shape is not 6 by 5 by 2
(here shape (2,)), `communicate` does not return a failure status at all —
it raises `NameError` (`np` unbound at pyasf.py line 71) before the input
is even inspected, so no status value `n` is ever returned (nothing is sent
either, but not as the result of any rejection). -/
theorem communicate_shape_counterexample :
    npShapeIs badShapeArr [6, 5, 2] = false ∧
    (communicate "panel" (PyVal.nparray "float64" badShapeArr) (some "ok")).1 =
      .error "NameError: name np is not defined" ∧
    ∀ n : Nat,
      (communicate "panel" (PyVal.nparray "float64" badShapeArr) (some "ok")).1 ≠ .ok n := by
  refine ⟨?_, rfl, ?_⟩
  · simp [npShapeIs, badShapeArr]
  · intro n h
    simp [communicate] at h

/-- C2 (amended): for every array input regardless of shape, and for every
input that is neither an array nor a mapping (e.g. a plain string),
`communicate` sends nothing on the channel — but not by validation: every
call raises `NameError` (`np` is unbound in pyasf.py, line 71) before the
input is inspected, and no failure status is returned. -/
theorem communicate_always_raises (ot : String) (data : PyVal) (reply : Option String) :
    communicate ot data reply = (.error "NameError: name np is not defined", []) := rfl

/-- `listStartsWith` holds of a list against itself. -/
theorem listStartsWith_self (l : List Char) : listStartsWith l l = true := by
  induction l with
  | nil => rfl
  | cons a as ih => simp [listStartsWith, ih]

/-- A pattern occurs in any list that ends with it. -/
theorem listContainsSub_append (pat l : List Char) :
    listContainsSub pat (l ++ pat) = true := by
  induction l with
  | nil =>
      cases pat with
      | nil => rfl
      | cons a as => simp [listContainsSub, listStartsWith_self]
  | cons c cs ih => simp [listContainsSub, ih]

/-- Appending the `_dtype` suffix always makes the decoder's substring test
succeed. -/
theorem hasDtypeTag_append (k : String) : hasDtypeTag (k ++ "_dtype") = true := by
  have hd : (k ++ "_dtype").data = k.data ++ "_dtype".data := by
    cases k
    rfl
  simp [hasDtypeTag, hd, listContainsSub_append]

/-- Dropping the last six characters undoes appending the `_dtype`
suffix. -/
theorem stripDtype_append (k : String) : stripDtype (k ++ "_dtype") = k := by
  have hd : (k ++ "_dtype").data = k.data ++ "_dtype".data := by
    cases k
    rfl
  simp [stripDtype, hd]

/-- C3 counterexample: when the `_dtype` entry appears AFTER the field's
value entry, the output does not hold the untagged raw value — the type-tag
string overwrites it (utils.py line 81 writes the tag under the base key,
replacing the previously copied value). -/
theorem np_type_decoder_order_counterexample :
    NpTypeDecoder
        [("x", PyVal.list [PyVal.float 1, PyVal.float 2]), ("x_dtype", PyVal.str "float64")] =
      .ok [("x", PyVal.str "float64")] ∧
    PyVal.str "float64" ≠ PyVal.list [PyVal.float 1, PyVal.float 2] := by
  exact ⟨rfl, by simp⟩

/-- C3 (amended): for a field whose key does not itself contain `_dtype`,
`NpTypeDecoder` never raises in the claim's scenarios: with the field's
`_dtype` entry absent the output holds the field's untagged raw value, and
with the `_dtype` entry appearing after the field's value entry the output
holds the type-tag value at the field's key (overwriting the raw value) —
in neither case a typed array, and in the latter case not the raw value. -/
theorem np_type_decoder_tag_after (k : String) (v : PyVal) (s : String)
    (hk : hasDtypeTag k = false) :
    NpTypeDecoder [(k, v)] = .ok [(k, v)] ∧
    NpTypeDecoder [(k, v), (k ++ "_dtype", PyVal.str s)] = .ok [(k, PyVal.str s)] := by
  constructor
  · simp [NpTypeDecoder, NpTypeDecoder_go, hk, alistGet?, alistUpdate]
  · simp [NpTypeDecoder, NpTypeDecoder_go, hk, alistGet?, alistUpdate,
      hasDtypeTag_append, stripDtype_append]

/-- Witness for C3 at the concrete field `x` with a `float64` tag. -/
theorem np_type_decoder_tag_after_witness :
    hasDtypeTag "x" = false ∧
    (NpTypeDecoder [("x", PyVal.list [])] = .ok [("x", PyVal.list [])] ∧
     NpTypeDecoder [("x", PyVal.list []), ("x" ++ "_dtype", PyVal.str "float64")] =
       .ok [("x", PyVal.str "float64")]) :=
  ⟨by decide, np_type_decoder_tag_after "x" (PyVal.list []) "float64" (by decide)⟩

/-- C4: with `pass_type` set, `Publisher.publish` evaluates
`utils.NpTypeEncoder(data)` where `data` is an unbound name (the parameter
is `data_dict`, pyasf.py line 240), so every call raises `NameError` instead
of type-tag encoding the record and broadcasting it. -/
theorem publish_passtype_raises :
    publish true [("x", PyVal.nparray "float64" (NpData.items [NpData.scalar (PyNum.f 1)]))] =
      .error "NameError: name data is not defined" ∧
    ∀ d : AList, publish true d = .error "NameError: name data is not defined" :=
  ⟨rfl, fun _ => rfl⟩

/-- A one-dimensional `float64` numpy array with the given elements. -/
def floatArr (xs : List Rat) : PyVal :=
  PyVal.nparray "float64" (NpData.items (xs.map (fun q => NpData.scalar (PyNum.f q))))

/-- `tolist()` of a one-dimensional float array is the plain list of its
elements. -/
theorem npToNested_floatItems (xs : List Rat) :
    npToNested (NpData.items (xs.map (fun q => NpData.scalar (PyNum.f q)))) =
      PyVal.list (xs.map PyVal.float) := by
  induction xs with
  | nil => simp [npToNested]
  | cons q qs ih => simp [npToNested, numToVal, ih]

/-- `np.array(v, dtype="float64")` on a plain list of floats rebuilds the
typed array. -/
theorem jsonToNp_floatList (xs : List Rat) :
    jsonToNp "float64" (PyVal.list (xs.map PyVal.float)) =
      some (NpData.items (xs.map (fun q => NpData.scalar (PyNum.f q)))) := by
  induction xs with
  | nil => simp [jsonToNp]
  | cons q qs ih => simp [jsonToNp, npCast, ih]

/-- C5: encoding a record holding a float array at key `x` with
`NpTypeEncoder`, passing it through the JSON wire (key order preserved), and
decoding with `NpTypeDecoder` yields at `x` the typed `float64` array with
the original elements — not a plain list. -/
theorem np_type_roundtrip_float_array (xs : List Rat) :
    NpTypeDecoder (wireA (NpTypeEncoder [("x", floatArr xs)])) = .ok [("x", floatArr xs)] := by
  have henc : NpTypeEncoder [("x", floatArr xs)] =
      [("x_dtype", PyVal.npdtype "float64"), ("x", floatArr xs)] := by
    simp +decide [NpTypeEncoder, np_type_encoder_go, floatArr, joinKey, alistUpdate]
  have hwire : wireA [("x_dtype", PyVal.npdtype "float64"), ("x", floatArr xs)] =
      [("x_dtype", PyVal.str "float64"), ("x", PyVal.list (xs.map PyVal.float))] := by
    simp [wireA, wire, floatArr, npToNested_floatItems]
  rw [henc, hwire]
  have h1 : hasDtypeTag "x_dtype" = true := by decide
  have h2 : hasDtypeTag "x" = false := by decide
  have h3 : stripDtype "x_dtype" = "x" := by decide
  simp [NpTypeDecoder, NpTypeDecoder_go, h1, h2, h3, alistUpdate, alistGet?, npArrayOf,
    jsonToNp_floatList, floatArr]

/-- The 6 by 5 by 2 all-opening command grid (azimuth 0, altitude 90 for
every panel), the payload `all_opening` builds (pyasf.py lines 94-97). -/
def grid652 : NpData :=
  NpData.items (List.replicate 6 (NpData.items (List.replicate 5
    (NpData.items [NpData.scalar (PyNum.f 0), NpData.scalar (PyNum.f 90)]))))

/-- C6: evaluating the code at a well-formed command input — the mapping
`{"panel_orientation": <6 by 5 by 2 array>}` — `communicate` raises
`NameError` for the reply `ok`, for the reply `error`, and for the timeout
alike, never returning a success or failure status: the acknowledgement
comparison of pyasf.py lines 81-92 is unreachable because line 71 raises
first (`np` unbound). -/
theorem communicate_ack_name_error :
    communicate "panel"
        (PyVal.dict [("panel_orientation", PyVal.nparray "float64" grid652)]) (some "ok") =
      (.error "NameError: name np is not defined", []) ∧
    communicate "panel"
        (PyVal.dict [("panel_orientation", PyVal.nparray "float64" grid652)]) (some "error") =
      (.error "NameError: name np is not defined", []) ∧
    communicate "panel"
        (PyVal.dict [("panel_orientation", PyVal.nparray "float64" grid652)]) none =
      (.error "NameError: name np is not defined", []) :=
  ⟨rfl, rfl, rfl⟩

/-- The flattened header of the record `{"timestamp": 1, "value": 2}`,
comma-joined. -/
theorem header_timestamp_value :
    String.intercalate "," (get_header [("timestamp", PyVal.int 1), ("value", PyVal.int 2)]) =
      "timestamp,value" := by
  simp [get_header, dict_flatten, dict_flatten_go, array_flatten, alistUpdate, joinKey]
  rfl

/-- C7: the claimed file invariant can never be established: the Data
Logger's constructor raises `NameError` (`time` unbound, pyasf.py line
136), and `receive` on a fresh logger state with the message
`{"timestamp": 1, "value": 2}` buffers the header line `timestamp,value`
and then raises `NameError` inside `_write` (line 219) — `header_written`
is never set to true and no data row is ever appended, so no run yields
`n + 1` lines. -/
theorem datalogger_receive_name_error :
    datalogger_init "unnamed-experiment" true = .error "NameError: name time is not defined" ∧
    receive ⟨false, true, [], []⟩ [("timestamp", PyVal.int 1), ("value", PyVal.int 2)] none =
      (.error "NameError: name time is not defined",
       ⟨false, true, ["timestamp,value"], []⟩) := by
  constructor
  · rfl
  · have hdec : NpTypeDecoder [("timestamp", PyVal.int 1), ("value", PyVal.int 2)] =
        .ok [("timestamp", PyVal.int 1), ("value", PyVal.int 2)] := rfl
    simp [receive, hdec, logger_write, header_timestamp_value]

/-- C8 counterexample: flattening the two-level mapping `{"a": {"b": 5}}`
with the non-default separator `/` still joins with `_` (the recursive call
at utils.py line 14 does not pass the separator), so the output key is
`a_b`, not the claimed `a/b`. -/
theorem flatten_separator_counterexample :
    dict_flatten [("a", PyVal.dict [("b", PyVal.int 5)])] "/" = [("a_b", PyVal.int 5)] ∧
    (dict_flatten [("a", PyVal.dict [("b", PyVal.int 5)])] "/").lookup "a/b" = none := by
  constructor
  · simp +decide [dict_flatten, dict_flatten_go, joinKey, array_flatten, alistUpdate]
  · simp +decide [dict_flatten, dict_flatten_go, joinKey, array_flatten, alistUpdate,
      List.lookup]

/-- The separator argument is dead in every recursive level: with no parent
key the current level never joins, nested levels always use the default
underscore, and array indices always use the literal underscore. -/
theorem dict_flatten_go_sep (fields : List (String × PyVal)) (acc : AList) (sep : String) :
    dict_flatten_go fields acc none sep = dict_flatten_go fields acc none "_" := by
  induction fields generalizing acc with
  | nil => simp [dict_flatten_go]
  | cons kv rest ih =>
      obtain ⟨k0, v⟩ := kv
      cases v <;> simp [dict_flatten_go, joinKey, ih]

/-- C8 (amended): Flatten produces the same output for every supplied
separator — the separator is not propagated into recursive calls, so nested
mapping keys are always joined with the default `_`, and array element
indices are always appended with `_`. -/
theorem flatten_separator_ignored (d : AList) (sep : String) :
    dict_flatten d sep = dict_flatten d "_" := by
  simp [dict_flatten, dict_flatten_go_sep]

/-- C9: `receive` never returns the empty mapping (or anything else): on a
fresh saving logger it raises `NameError` at the header write (`time`
unbound, pyasf.py line 219); with the header flag already set, or with
`saveToFile` false, it raises `NameError` at `get_data` (`np` unbound,
line 180) with the state unchanged — `return data_arrays` and the
retained-payload assignment are unreachable, so neither the CSV row nor
`self.data` ever reflects the received record. -/
theorem receive_never_returns_empty :
    (receive ⟨false, true, [], []⟩ [("timestamp", PyVal.int 1), ("value", PyVal.int 2)] none).1 =
      .error "NameError: name time is not defined" ∧
    receive ⟨true, true, [], []⟩ [("timestamp", PyVal.int 1), ("value", PyVal.int 2)] none =
      (.error "NameError: name np is not defined", ⟨true, true, [], []⟩) ∧
    receive ⟨false, false, [], []⟩ [("timestamp", PyVal.int 1), ("value", PyVal.int 2)] none =
      (.error "NameError: name np is not defined", ⟨false, false, [], []⟩) := by
  have hdec : NpTypeDecoder [("timestamp", PyVal.int 1), ("value", PyVal.int 2)] =
      .ok [("timestamp", PyVal.int 1), ("value", PyVal.int 2)] := rfl
  refine ⟨?_, ?_, ?_⟩ <;> simp [receive, hdec, logger_write, get_data]

/-- C10 counterexample: even for a record that does contain a `timestamp`
key, `receive` with no predicate does not process the whole record — it
raises `NameError` at the header write (`time` unbound in pyasf.py) and
never returns a mapping. -/
theorem receive_no_predicate_counterexample :
    (receive ⟨false, true, [], []⟩ [("timestamp", PyVal.int 1)] none).1 =
      .error "NameError: name time is not defined" ∧
    ∀ out : AList, (receive ⟨false, true, [], []⟩ [("timestamp", PyVal.int 1)] none).1 ≠
      .ok out := by
  have hdec : NpTypeDecoder [("timestamp", PyVal.int 1)] =
      .ok [("timestamp", PyVal.int 1)] := rfl
  have hmain : (receive ⟨false, true, [], []⟩ [("timestamp", PyVal.int 1)] none).1 =
      .error "NameError: name time is not defined" := by
    simp [receive, hdec, logger_write]
  refine ⟨hmain, ?_⟩
  intro out h
  rw [hmain] at h
  exact Except.noConfusion h

/-- C10 (amended): when `receive` is called with a filter predicate, the
decoded record must contain a `timestamp` key; if it does not, `receive`
fails with the key-lookup error before anything is written to the file
(the state is unchanged), whereas with no predicate supplied no
`timestamp` key is required — the key-lookup error cannot occur — though
the record is still not fully processed: the call raises `NameError` at
the header write (`time` unbound, line 219) or at `get_data` (`np`
unbound, line 180). -/
theorem receive_filter_requires_timestamp (st : LoggerState) (m d : AList)
    (p : String × PyVal → Bool) (hdec : NpTypeDecoder m = .ok d)
    (hts : alistGet? d "timestamp" = none) :
    receive st m (some p) = (.error "KeyError: timestamp", st) ∧
    ((receive st m none).1 = .error "NameError: name time is not defined" ∨
     (receive st m none).1 = .error "NameError: name np is not defined") := by
  constructor
  · simp [receive, hdec, applyFilter, hts]
  · by_cases h : (!st.headerWritten && st.saveToFile) = true
    · exact Or.inl (by simp [receive, hdec, h, logger_write])
    · exact Or.inr (by simp [receive, hdec, h, get_data])

/-- Witness for C10 on the concrete record `{"other": 7}` (no timestamp)
with a concrete predicate. -/
theorem receive_filter_requires_timestamp_witness :
    receive ⟨false, true, [], []⟩ [("other", PyVal.int 7)]
        (some (fun kv => kv.1 == "value")) =
      (.error "KeyError: timestamp", ⟨false, true, [], []⟩) ∧
    ((receive ⟨false, true, [], []⟩ [("other", PyVal.int 7)] none).1 =
      .error "NameError: name time is not defined" ∨
     (receive ⟨false, true, [], []⟩ [("other", PyVal.int 7)] none).1 =
      .error "NameError: name np is not defined") :=
  receive_filter_requires_timestamp ⟨false, true, [], []⟩ [("other", PyVal.int 7)]
    [("other", PyVal.int 7)] (fun kv => kv.1 == "value") rfl rfl

end Pyasf
